import Mathlib

/-!
# Verification of the OIL_dashboard server (src/server.mjs)

Shallow embedding of the cache-then-fetch-then-transform pipeline of
`server.mjs`.  JavaScript numbers are modelled as rationals (ℚ); the
millisecond clock is modelled as a time in seconds (ℚ); `toFixed(2)`
followed by `parseFloat` is modelled as rounding half-up to two decimals;
raw JSON string fields that are fed to `parseFloat` are modelled as
`Option ℚ` where `none` stands for an unparseable value (`parseFloat`
returning `NaN`); fallible asynchronous calls are modelled by explicit
outcome types.
-/

namespace Oil

/-- Model of `parseFloat(x.toFixed(2))`: rounding half-up to 2 decimals. -/
def round2 (x : ℚ) : ℚ := ((⌊x * 100 + 1 / 2⌋ : ℤ) : ℚ) / 100

/-- `{ price, change }` — the atomic quote (server.mjs builds these inline). -/
structure PriceQuote where
  price : ℚ
  change : ℚ
deriving Repr, DecidableEq

/-- The object returned by `transformBangchakData` / `getFallbackPrices`. -/
structure CurrentPrices where
  gasoline95 : PriceQuote
  gasoline91 : PriceQuote
  gasohol95 : PriceQuote
  gasohol91 : PriceQuote
  e20 : PriceQuote
  e85 : PriceQuote
  dieselB7 : PriceQuote
  dieselB20 : PriceQuote
  updatedAt : String
deriving Repr, DecidableEq

/-- One element of the Bangchak `Data` array.  `NameEN`/`NameTH` may be
absent (the code guards with `p.NameEN && ...`).  `Today`/`Diff` model the
result of `parseFloat` on the raw field: `none` = unparseable (`NaN`). -/
structure RawRecord where
  NameEN : Option String
  NameTH : Option String
  Today : Option ℚ
  Diff : Option ℚ
deriving Repr, DecidableEq

/-- The parsed Bangchak payload: `Data` is `none` when the top-level
`Data` array is missing (the `!bangchakData.Data` check). -/
structure BangchakPayload where
  Data : Option (List RawRecord)
  LastUpdate : Option String
deriving Repr, DecidableEq

/-- Substring test on character lists (JavaScript `String.includes`). -/
def containsSub (needle : List Char) : List Char → Bool
  | [] => needle.isEmpty
  | c :: rest => needle.isPrefixOf (c :: rest) || containsSub needle rest

/-- `s.toLowerCase()` as a character list (per-character lowercasing). -/
def lowerChars (s : String) : List Char := s.data.map Char.toLower

/-- `p.NameEN && p.NameEN.toLowerCase().includes(keyword.toLowerCase())`. -/
def matchesEN (kw : String) (p : RawRecord) : Bool :=
  match p.NameEN with
  | some n => containsSub (lowerChars kw) (lowerChars n)
  | none => false

/-- `p.NameTH && p.NameTH.includes(keyword)` — case-sensitive. -/
def matchesTH (kw : String) (p : RawRecord) : Bool :=
  match p.NameTH with
  | some n => containsSub kw.data n.data
  | none => false

/-- The predicate inside `products.find(...)` in `findPrice`. -/
def recordMatches (kw : String) (p : RawRecord) : Bool :=
  matchesEN kw p || matchesTH kw p

/-- `{ price: parseFloat(product.Today) || 0, change: parseFloat(product.Diff) || 0 }`. -/
def quoteOf (p : RawRecord) : PriceQuote :=
  ⟨p.Today.getD 0, p.Diff.getD 0⟩

/-- `findPrice` from `transformBangchakData`: iterate the keyword list;
for each keyword take the first product matching it; fall back to
`{price: 0, change: 0}` when no keyword matches any product. -/
def findPrice (products : List RawRecord) : List String → PriceQuote
  | [] => ⟨0, 0⟩
  | kw :: rest =>
    match products.find? (recordMatches kw) with
    | some p => quoteOf p
    | none => findPrice products rest

def gasoline95Keywords : List String :=
  ["Hi Premium 97", "Premium 97", "Gasoline 97", "เบนซิน 97"]

def gasoline91Keywords : List String := ["Gasoline 91", "เบนซิน 91"]

def gasohol95Keywords : List String := ["Gasohol 95", "แก๊สโซฮอล์ 95"]

def gasohol91Keywords : List String := ["Gasohol 91", "แก๊สโซฮอล์ 91"]

def e20Keywords : List String := ["Gasohol E20", "E20", "อี 20"]

def e85Keywords : List String := ["Gasohol E85", "E85", "อี 85"]

def dieselB7Keywords : List String := ["Hi Diesel B7", "Diesel B7", "ดีเซล B7"]

def dieselB20Keywords : List String := ["Hi Diesel B20", "Diesel B20", "ดีเซล B20"]

/-- `transformBangchakData`.  The argument is the parsed JSON body
(`none` = missing/null payload); `now` models `new Date().toISOString()`
used when `LastUpdate` is absent.  Throwing `Invalid Bangchak data
structure` is modelled as `Except.error`. -/
def transformBangchakData (bangchakData : Option BangchakPayload) (now : String) :
    Except String CurrentPrices :=
  match bangchakData with
  | none => .error "Invalid Bangchak data structure"
  | some b =>
    match b.Data with
    | none => .error "Invalid Bangchak data structure"
    | some products =>
      .ok
        { gasoline95 := findPrice products gasoline95Keywords
          gasoline91 := findPrice products gasoline91Keywords
          gasohol95 := findPrice products gasohol95Keywords
          gasohol91 := findPrice products gasohol91Keywords
          e20 := findPrice products e20Keywords
          e85 := findPrice products e85Keywords
          dieselB7 := findPrice products dieselB7Keywords
          dieselB20 := findPrice products dieselB20Keywords
          updatedAt := b.LastUpdate.getD now }

/-- `getFallbackPrices`; `now` models `new Date().toISOString()`. -/
def getFallbackPrices (now : String) : CurrentPrices :=
  { gasoline95 := ⟨38.42, -0.20⟩
    gasoline91 := ⟨35.67, 0.15⟩
    gasohol95 := ⟨36.89, 0⟩
    gasohol91 := ⟨34.12, -0.30⟩
    e20 := ⟨32.55, -0.25⟩
    e85 := ⟨28.90, 0.10⟩
    dieselB7 := ⟨32.44, -0.18⟩
    dieselB20 := ⟨31.89, -0.22⟩
    updatedAt := now }

/-! ## Cache helpers (DynamoDB `getFromCache` / `saveToCache`) -/

/-- Outcome of the DynamoDB `GetCommand` inside `getFromCache`:
item found (with the stored payload and its `timestamp`, in seconds),
no item, or the `docClient.send` call throwing. -/
inductive CacheReadOutcome (α : Type) where
  | found (payload : α) (storedAt : ℚ)
  | notFound
  | storeError (msg : String)
deriving Repr, DecidableEq

/-- `getFromCache(cacheKey, maxAge)`: a found item is returned while its
age `now - storedAt` (seconds) is `< maxAge`; an expired item, a missing
item and a store error all yield `null` (modelled `none`). -/
def getFromCache {α : Type} (outcome : CacheReadOutcome α) (now maxAge : ℚ) : Option α :=
  match outcome with
  | .found payload storedAt => if now - storedAt < maxAge then some payload else none
  | .notFound => none
  | .storeError _ => none

/-- The item written by a successful `saveToCache` `PutCommand`. -/
structure StoredItem (α : Type) where
  cacheKey : String
  data : α
  timestamp : ℚ
  ttlAttr : ℚ
deriving Repr, DecidableEq

/-- `saveToCache(cacheKey, data, ttl)` executed at time `now` (seconds):
stores the payload verbatim with `timestamp = now` and the DynamoDB
expiry attribute `Math.floor(Date.now() / 1000) + ttl`.  That attribute
drives DynamoDB-side deletion only; `getFromCache` never reads it. -/
def saveToCache {α : Type} (cacheKey : String) (data : α) (now ttl : ℚ) : StoredItem α :=
  ⟨cacheKey, data, now, ((⌊now⌋ : ℤ) : ℚ) + ttl⟩

/-- A later `getFromCache` that finds exactly the item a `saveToCache`
wrote (same key, single-item store). -/
def readStored {α : Type} (item : StoredItem α) (now maxAge : ℚ) : Option α :=
  getFromCache (.found item.data item.timestamp) now maxAge

/-! ## `getCurrentPrices` and the `/prices` handler -/

/-- Outcome of `fetch(BANGCHAK_API_URL, ...)`: the promise rejecting
(network error / timeout), or a resolved response with its HTTP status
and parsed JSON body (`none` = body that `transformBangchakData`
rejects: unparseable or missing the `Data` array is folded into
`BangchakPayload.Data`/the `none` payload, both land in the same
`catch`). -/
inductive FetchResult where
  | fetchError (msg : String)
  | response (status : Nat) (body : Option BangchakPayload)
deriving Repr, DecidableEq

/-- `response.ok`: HTTP status in the range 200–299. -/
def responseOk (status : Nat) : Bool := 200 ≤ status && status ≤ 299

/-- `true` exactly when the `try` block of `getCurrentPrices` reaches its
`return formattedData` (fetch resolved, `response.ok`, payload has the
`Data` array). -/
def fetchSucceeds : FetchResult → Bool
  | .fetchError _ => false
  | .response status body =>
    responseOk status &&
      (match body with
       | some b => b.Data.isSome
       | none => false)

/-- Result of one `getCurrentPrices` call: the returned value plus the
payload passed to `saveToCache`, if any. -/
structure PricesStep where
  result : CurrentPrices
  cachePut : Option CurrentPrices
deriving Repr, DecidableEq

/-- `getCurrentPrices`: cache hit short-circuits; otherwise fetch, and on
any failure (rejected fetch, `!response.ok` throw, transform throw) the
`catch` returns `getFallbackPrices()` without caching.  Only a
successfully transformed payload is written to the cache. -/
def getCurrentPrices (cacheOutcome : CacheReadOutcome CurrentPrices) (now : ℚ)
    (f : FetchResult) (nowStr : String) : PricesStep :=
  match getFromCache cacheOutcome now 3600 with
  | some d => ⟨d, none⟩
  | none =>
    match f with
    | .fetchError _ => ⟨getFallbackPrices nowStr, none⟩
    | .response status body =>
      if responseOk status then
        match transformBangchakData body nowStr with
        | .ok formatted => ⟨formatted, some formatted⟩
        | .error _ => ⟨getFallbackPrices nowStr, none⟩
      else ⟨getFallbackPrices nowStr, none⟩

/-- What an Express handler sends: `res.json(data)` (HTTP 200) or
`res.status(500).json({message, error})`. -/
inductive HttpOutcome (α : Type) where
  | success (body : α)
  | serverError (message : String) (error : String)
deriving Repr, DecidableEq

def HttpOutcome.isSuccess {α : Type} : HttpOutcome α → Bool
  | .success _ => true
  | .serverError _ _ => false

/-- The `GET /prices` handler: `getCurrentPrices` never rejects (its
`catch` handles every upstream failure and `getFromCache`/`saveToCache`
swallow their own errors), so the handler's `catch` (the 500 branch) is
dead and the response is always `res.json(data)`. -/
def pricesEndpoint (cacheOutcome : CacheReadOutcome CurrentPrices) (now : ℚ)
    (f : FetchResult) (nowStr : String) : HttpOutcome CurrentPrices × Option CurrentPrices :=
  let s := getCurrentPrices cacheOutcome now f nowStr
  (.success s.result, s.cachePut)

/-! ## `getBrandComparison` -/

/-- `adjustPrice(basePrice, adjustment)`:
`parseFloat((basePrice + adjustment).toFixed(2))`. -/
def adjustPrice (basePrice adjustment : ℚ) : ℚ := round2 (basePrice + adjustment)

structure GasolineRow where
  brand : String
  g95 : ℚ
  g91 : ℚ
deriving Repr, DecidableEq

structure GasoholRow where
  brand : String
  gh95 : ℚ
  gh91 : ℚ
  e20 : ℚ
deriving Repr, DecidableEq

structure DieselRow where
  brand : String
  b7 : ℚ
  b20 : ℚ
deriving Repr, DecidableEq

structure BrandComparison where
  gasoline : List GasolineRow
  gasohol : List GasoholRow
  diesel : List DieselRow
deriving Repr, DecidableEq

/-- The `brandData` object built by `getBrandComparison` from the current
prices (the function's cache layer is the same get/save pair modelled
above; the table itself is a pure function of `currentPrices`). -/
def getBrandComparison (cp : CurrentPrices) : BrandComparison :=
  { gasoline :=
      [ ⟨"Bangchak", cp.gasoline95.price, cp.gasoline91.price⟩
      , ⟨"PTT", adjustPrice cp.gasoline95.price 0.05, adjustPrice cp.gasoline91.price 0.05⟩
      , ⟨"Shell", adjustPrice cp.gasoline95.price 0.08, adjustPrice cp.gasoline91.price 0.08⟩
      , ⟨"Esso", adjustPrice cp.gasoline95.price 0.06, adjustPrice cp.gasoline91.price 0.06⟩
      , ⟨"Caltex", adjustPrice cp.gasoline95.price 0.04, adjustPrice cp.gasoline91.price 0.04⟩ ]
    gasohol :=
      [ ⟨"Bangchak", cp.gasohol95.price, cp.gasohol91.price, cp.e20.price⟩
      , ⟨"PTT", adjustPrice cp.gasohol95.price 0.05, adjustPrice cp.gasohol91.price 0.05,
          adjustPrice cp.e20.price 0.04⟩
      , ⟨"Shell", adjustPrice cp.gasohol95.price 0.07, adjustPrice cp.gasohol91.price 0.07,
          adjustPrice cp.e20.price 0.06⟩
      , ⟨"Esso", adjustPrice cp.gasohol95.price 0.06, adjustPrice cp.gasohol91.price 0.06,
          adjustPrice cp.e20.price 0.05⟩ ]
    diesel :=
      [ ⟨"Bangchak", cp.dieselB7.price, cp.dieselB20.price⟩
      , ⟨"PTT", adjustPrice cp.dieselB7.price 0.05, adjustPrice cp.dieselB20.price 0.05⟩
      , ⟨"Shell", adjustPrice cp.dieselB7.price 0.08, adjustPrice cp.dieselB20.price 0.08⟩
      , ⟨"Esso", adjustPrice cp.dieselB7.price 0.06, adjustPrice cp.dieselB20.price 0.06⟩ ] }

/-! ## `getHistoricalPrices` -/

/-- The loop body of `generateRealisticTrend`, iterating `i` upward with
`fuel` steps left.  Each step draws `entropy i` (a `Math.random()` value),
updates the unrounded running `price` and pushes the value rounded to two
decimals; the running price itself stays unrounded, exactly as in the
source. -/
def walkFrom (volatility : ℚ) (entropy : Nat → ℚ) : Nat → Nat → ℚ → List ℚ
  | _, 0, _ => []
  | i, fuel + 1, price =>
    let change := (entropy i - 1 / 2) * volatility
    let trend := -(3 / 1000) * ((30 : ℚ) - (i : ℚ))
    let price2 := price + change + trend
    round2 price2 :: walkFrom volatility entropy (i + 1) fuel price2

/-- `generateRealisticTrend(currentPrice, volatility)`: a 30-step random
walk whose last slot (`prices[29]`) is then overwritten with the exact
current price. -/
def generateRealisticTrend (currentPrice volatility : ℚ) (entropy : Nat → ℚ) : List ℚ :=
  (walkFrom volatility entropy 0 30 currentPrice).set 29 currentPrice

/-- The three series of `historicalData` (the `labels` field — locale
date formatting — is outside the numeric model). -/
structure HistoricalSeries where
  gasoline95 : List ℚ
  gasohol95 : List ℚ
  dieselB7 : List ℚ
deriving Repr, DecidableEq

/-- The `historicalData` object of `getHistoricalPrices`, given the
current prices and one entropy stream per `generateRealisticTrend`
call (volatilities 0.5 / 0.4 / 0.3 from the source). -/
def generateHistoricalData (cp : CurrentPrices) (e1 e2 e3 : Nat → ℚ) : HistoricalSeries :=
  { gasoline95 := generateRealisticTrend cp.gasoline95.price 0.5 e1
    gasohol95 := generateRealisticTrend cp.gasohol95.price 0.4 e2
    dieselB7 := generateRealisticTrend cp.dieselB7.price 0.3 e3 }

/-- `getHistoricalPrices` with its 6-hour cache layer: cache hit returns
the cached series; otherwise generate and cache the result. -/
def getHistoricalPrices (cacheOutcome : CacheReadOutcome HistoricalSeries) (now : ℚ)
    (cp : CurrentPrices) (e1 e2 e3 : Nat → ℚ) : HistoricalSeries × Option HistoricalSeries :=
  match getFromCache cacheOutcome now 21600 with
  | some d => (d, none)
  | none =>
    let h := generateHistoricalData cp e1 e2 e3
    (h, some h)

/-! ## `getWorldPrices` and `fetchExchangeRate` -/

structure WorldPrices where
  wti : PriceQuote
  brent : PriceQuote
  dubai : PriceQuote
  thb : PriceQuote
deriving Repr, DecidableEq

/-- Outcome of the exchange-rate `fetch`: rejected promise, or a resolved
response (`ok` = `response.ok`) whose parsed body has `rates.THB = thbRate`
(`none` models a missing `THB` key, which makes `rate.toFixed(2)` throw a
`TypeError` inside the `try`). -/
inductive ExchangeFetchResult where
  | fetchError (msg : String)
  | response (ok : Bool) (thbRate : Option ℚ)
deriving Repr, DecidableEq

/-- The `try` block of `fetchExchangeRate`: every failure mode is an
`Except.error`; `r` is the `Math.random()` draw for the `change` field. -/
def fetchExchangeRateBody (res : ExchangeFetchResult) (r : ℚ) : Except String PriceQuote :=
  match res with
  | .fetchError m => .error m
  | .response ok thbRate =>
    if !ok then .error "Exchange rate API failed"
    else
      match thbRate with
      | none => .error "TypeError: rate is undefined"
      | some rate => .ok ⟨round2 rate, (r - 1 / 2) * (1 / 5)⟩

/-- `fetchExchangeRate`: its own `catch` turns every error of the `try`
block into `null`, so the caller never sees a rejection. -/
def fetchExchangeRate (res : ExchangeFetchResult) (r : ℚ) : Option PriceQuote :=
  match fetchExchangeRateBody res r with
  | .ok q => some q
  | .error _ => none

/-- The final `.toFixed(2)` pass that `getWorldPrices` applies to every
key of `worldData`. -/
def roundQuote (q : PriceQuote) : PriceQuote := ⟨round2 q.price, round2 q.change⟩

/-- The `worldData` object: three benchmarks from fixed bases plus
uniform noise (entropy draws `e 0 .. e 5`), and the THB quote from the
fetched exchange rate or the inline fallback `{price: 34.85, change: 0}`;
all fields then rounded to two decimals. -/
def buildWorldData (exchangeRate : Option PriceQuote) (e : Nat → ℚ) : WorldPrices :=
  { wti := roundQuote ⟨75.42 + (e 0 - 1 / 2) * 5, (e 1 - 1 / 2) * 3⟩
    brent := roundQuote ⟨79.15 + (e 2 - 1 / 2) * 5, (e 3 - 1 / 2) * 3⟩
    dubai := roundQuote ⟨77.80 + (e 4 - 1 / 2) * 5, (e 5 - 1 / 2) * 3⟩
    thb := roundQuote (exchangeRate.getD ⟨34.85, 0⟩) }

/-- `getFallbackWorldPrices`. -/
def getFallbackWorldPrices : WorldPrices :=
  { wti := ⟨75.42, 1.2⟩
    brent := ⟨79.15, 0.8⟩
    dubai := ⟨77.80, -0.5⟩
    thb := ⟨34.85, 0⟩ }

/-- Which branch of `getWorldPrices` produced the response. -/
inductive WorldPath where
  | fromCache
  | generated
  | fallback
deriving Repr, DecidableEq

/-- The `try` block of `getWorldPrices` after a cache miss.  Its only
fallible calls handle their own errors: `fetchExchangeRate` catches
internally and returns `null`, and `saveToCache` swallows write errors —
so the block never throws and this computation never returns
`Except.error`. -/
def getWorldPricesTry (exres : ExchangeFetchResult) (r : ℚ) (e : Nat → ℚ) :
    Except String (WorldPrices × Option WorldPrices) :=
  let exchangeRate := fetchExchangeRate exres r
  let worldData := buildWorldData exchangeRate e
  .ok (worldData, some worldData)

/-- `getWorldPrices`: cache hit, else run the `try` block; its `catch`
returns `getFallbackWorldPrices()` without caching.  The result is the
taken path, the returned payload, and the payload written to cache (if
any). -/
def getWorldPrices (cacheOutcome : CacheReadOutcome WorldPrices) (now : ℚ)
    (exres : ExchangeFetchResult) (r : ℚ) (e : Nat → ℚ) :
    WorldPath × WorldPrices × Option WorldPrices :=
  match getFromCache cacheOutcome now 3600 with
  | some d => (.fromCache, d, none)
  | none =>
    match getWorldPricesTry exres r e with
    | .ok (w, put) => (.generated, w, put)
    | .error _ => (.fallback, getFallbackWorldPrices, none)

/-! ## Auxiliary definitions used by the statements -/

/-- `true` on `Except.ok`. -/
def exOk {ε α : Type} : Except ε α → Bool
  | .ok _ => true
  | .error _ => false

/-- `true` exactly when the raw payload passes the
`!bangchakData || !bangchakData.Data` guard of `transformBangchakData`. -/
def payloadHasData : Option BangchakPayload → Bool
  | none => false
  | some b => b.Data.isSome

/-- Modelled from the claim under test, NOT from the source: the quote of
the first RECORD, in list order, whose name contains any alias of the
grade ("an earlier record in the list wins over a later one").  Defined
only to be compared against the source's `findPrice`, whose outer loop is
over aliases, not records. -/
def findPriceClaimed (products : List RawRecord) (keywords : List String) : PriceQuote :=
  match products.find? (fun p => keywords.any fun kw => recordMatches kw p) with
  | some p => quoteOf p
  | none => ⟨0, 0⟩

/-! ## Helper lemmas -/

theorem transform_ok_eq (payload : Option BangchakPayload) (now : String) :
    exOk (transformBangchakData payload now) = payloadHasData payload := by
  rcases payload with _ | ⟨d, lu⟩
  · rfl
  · rcases d with _ | prods <;> rfl

theorem getCurrentPrices_fail (f : FetchResult) (now : ℚ) (nowStr : String)
    (h : fetchSucceeds f = false) :
    getCurrentPrices .notFound now f nowStr = ⟨getFallbackPrices nowStr, none⟩ := by
  cases f with
  | fetchError m => rfl
  | response status body =>
    by_cases hok : responseOk status
    · rcases body with _ | ⟨d, lu⟩
      · simp [getCurrentPrices, getFromCache, hok, transformBangchakData]
      · rcases d with _ | prods
        · simp [getCurrentPrices, getFromCache, hok, transformBangchakData]
        · simp [fetchSucceeds, hok] at h
    · simp only [Bool.not_eq_true] at hok
      simp [getCurrentPrices, getFromCache, hok]

theorem walkFrom_length (v : ℚ) (e : Nat → ℚ) :
    ∀ (fuel i : Nat) (p : ℚ), (walkFrom v e i fuel p).length = fuel := by
  intro fuel
  induction fuel with
  | zero => intro i p; rfl
  | succ n ih => intro i p; simp [walkFrom, ih]

theorem trend_last (cp v : ℚ) (e : Nat → ℚ) :
    (generateRealisticTrend cp v e)[29]? = some cp := by
  unfold generateRealisticTrend
  apply List.getElem?_set_eq_of_lt
  rw [walkFrom_length]
  norm_num

theorem le_round2 (x : ℚ) (n : ℤ) (h : (n : ℚ) ≤ x * 100 + 1 / 2) :
    (n : ℚ) / 100 ≤ round2 x := by
  unfold round2
  have h1 : n ≤ ⌊x * 100 + 1 / 2⌋ := Int.le_floor.mpr h
  have h2 : (n : ℚ) ≤ ((⌊x * 100 + 1 / 2⌋ : ℤ) : ℚ) := Int.cast_le.mpr h1
  linarith

theorem round2_le (x : ℚ) (n : ℤ) (h : x * 100 + 1 / 2 < (n : ℚ) + 1) :
    round2 x ≤ (n : ℚ) / 100 := by
  unfold round2
  have h1 : ⌊x * 100 + 1 / 2⌋ < n + 1 := Int.floor_lt.mpr (by push_cast; linarith)
  have h2 : ⌊x * 100 + 1 / 2⌋ ≤ n := by omega
  have h3 : ((⌊x * 100 + 1 / 2⌋ : ℤ) : ℚ) ≤ (n : ℚ) := Int.cast_le.mpr h2
  linarith

theorem round2_bounds (x : ℚ) (lo hi : ℤ) (hlo : (lo : ℚ) ≤ x * 100 + 1 / 2)
    (hhi : x * 100 + 1 / 2 < (hi : ℚ) + 1) :
    (lo : ℚ) / 100 ≤ round2 x ∧ round2 x ≤ (hi : ℚ) / 100 :=
  ⟨le_round2 x lo hlo, round2_le x hi hhi⟩

/-! ## Claim theorems -/

/-- Claim C2 (confirmed): for every grade tracked by the historical
generator (gasoline95, gasohol95, dieselB7), for every invocation and
every entropy stream, the 30th element (index 29) of the generated series
equals the corresponding current price exactly; and the cache-miss path
of `getHistoricalPrices` serves exactly this generated data. -/
theorem historical_last_equals_current (cp : CurrentPrices) (e1 e2 e3 : Nat → ℚ) :
    ((generateHistoricalData cp e1 e2 e3).gasoline95)[29]? = some cp.gasoline95.price ∧
    ((generateHistoricalData cp e1 e2 e3).gasohol95)[29]? = some cp.gasohol95.price ∧
    ((generateHistoricalData cp e1 e2 e3).dieselB7)[29]? = some cp.dieselB7.price ∧
    (getHistoricalPrices .notFound 0 cp e1 e2 e3).1 = generateHistoricalData cp e1 e2 e3 :=
  ⟨trend_last cp.gasoline95.price 0.5 e1, trend_last cp.gasohol95.price 0.4 e2,
   trend_last cp.dieselB7.price 0.3 e3, rfl⟩

/-- Claim C3 (confirmed): `getBrandComparison` is a deterministic function
of the current prices applying fixed per-brand additive offsets rounded
to 2 decimals; with gasoline95 = 38.42 the g95 column reads
Bangchak 38.42, PTT 38.47, Shell 38.50, Esso 38.48, Caltex 38.46. -/
theorem brand_g95_offsets (cp : CurrentPrices) (h : cp.gasoline95.price = 38.42) :
    ((getBrandComparison cp).gasoline.map fun row => (row.brand, row.g95)) =
      [("Bangchak", 38.42), ("PTT", 38.47), ("Shell", 38.5),
       ("Esso", 38.48), ("Caltex", 38.46)] := by
  simp only [getBrandComparison, List.map, h]
  norm_num [adjustPrice, round2]

/-- Witness for C3 at the concrete fallback snapshot (gasoline95 = 38.42). -/
theorem brand_g95_offsets_witness :
    ((getBrandComparison (getFallbackPrices "t")).gasoline.map fun row => (row.brand, row.g95)) =
      [("Bangchak", 38.42), ("PTT", 38.47), ("Shell", 38.5),
       ("Esso", 38.48), ("Caltex", 38.46)] :=
  brand_g95_offsets (getFallbackPrices "t") rfl

/-- Claim C5 (confirmed): on a cache miss, when the upstream fetch
resolves with a non-success HTTP status (e.g. 503), the `/prices` handler
responds with `res.json` (HTTP 200) carrying exactly the hardcoded
fallback snapshot, writes nothing to the cache, and does not produce the
500 error branch. -/
theorem prices_non2xx_returns_fallback (status : Nat) (body : Option BangchakPayload)
    (now : ℚ) (nowStr : String) (h : responseOk status = false) :
    pricesEndpoint .notFound now (.response status body) nowStr
        = (.success (getFallbackPrices nowStr), none) ∧
    (getFallbackPrices nowStr).gasoline95 = ⟨38.42, -0.20⟩ ∧
    (getFallbackPrices nowStr).gasoline91 = ⟨35.67, 0.15⟩ ∧
    (getFallbackPrices nowStr).gasohol95 = ⟨36.89, 0⟩ ∧
    (getFallbackPrices nowStr).gasohol91 = ⟨34.12, -0.30⟩ ∧
    (getFallbackPrices nowStr).e20 = ⟨32.55, -0.25⟩ ∧
    (getFallbackPrices nowStr).e85 = ⟨28.90, 0.10⟩ ∧
    (getFallbackPrices nowStr).dieselB7 = ⟨32.44, -0.18⟩ ∧
    (getFallbackPrices nowStr).dieselB20 = ⟨31.89, -0.22⟩ := by
  refine ⟨?_, rfl, rfl, rfl, rfl, rfl, rfl, rfl, rfl⟩
  simp [pricesEndpoint, getCurrentPrices, getFromCache, h]

/-- Witness for C5 at status 503. -/
theorem prices_non2xx_returns_fallback_witness :
    pricesEndpoint .notFound 0 (.response 503 none) "t"
        = (.success (getFallbackPrices "t"), none) ∧
    (getFallbackPrices "t").gasoline95 = ⟨38.42, -0.20⟩ ∧
    (getFallbackPrices "t").gasoline91 = ⟨35.67, 0.15⟩ ∧
    (getFallbackPrices "t").gasohol95 = ⟨36.89, 0⟩ ∧
    (getFallbackPrices "t").gasohol91 = ⟨34.12, -0.30⟩ ∧
    (getFallbackPrices "t").e20 = ⟨32.55, -0.25⟩ ∧
    (getFallbackPrices "t").e85 = ⟨28.90, 0.10⟩ ∧
    (getFallbackPrices "t").dieselB7 = ⟨32.44, -0.18⟩ ∧
    (getFallbackPrices "t").dieselB20 = ⟨31.89, -0.22⟩ :=
  prices_non2xx_returns_fallback 503 none 0 "t" rfl

/-- Claim C7 (confirmed): a cache-store read failure behaves exactly like
a cache miss — `getFromCache` returns `none` on a store error, the
`/prices` pipeline is pointwise equal to its cache-miss run, and the
handler still answers with a success response. -/
theorem cache_error_treated_as_miss (msg : String) (now maxAge : ℚ)
    (f : FetchResult) (nowStr : String) :
    getFromCache (CacheReadOutcome.storeError msg : CacheReadOutcome CurrentPrices) now maxAge
        = none ∧
    pricesEndpoint (.storeError msg) now f nowStr = pricesEndpoint .notFound now f nowStr ∧
    (pricesEndpoint (.storeError msg) now f nowStr).1.isSuccess = true :=
  ⟨rfl, rfl, rfl⟩

/-- Claim C8, counterexample to the unrestricted statement: with
`ttl = 0` an immediate `get` after `put` already reports the entry
expired (the validity test `now - storedAt < ttl` is strict), so the
round-trip does not return the stored payload for every `ttl`. -/
theorem cache_roundtrip_zero_ttl_cex :
    readStored (saveToCache "k" (7 : ℚ) 0 0) 0 0 = none := by
  norm_num [readStored, saveToCache, getFromCache]

/-- Claim C8 (corrected): for every key, payload and strictly positive
`ttl`, a `put` followed immediately by a `get` with the same `maxAge`
returns the payload unchanged; and any `get` issued once
`storedAt + maxAge` seconds have elapsed returns absent. -/
theorem cache_roundtrip_amended (α : Type) (k : String) (v : α) (t ttl now maxAge : ℚ) :
    (0 < ttl → readStored (saveToCache k v t ttl) t ttl = some v) ∧
    (t + maxAge ≤ now → readStored (saveToCache k v t ttl) now maxAge = none) := by
  constructor
  · intro h
    simp only [readStored, saveToCache, getFromCache, sub_self]
    rw [if_pos h]
  · intro h
    simp only [readStored, saveToCache, getFromCache]
    rw [if_neg (by linarith : ¬ now - t < maxAge)]

/-- Witness for C8 (amended) with `ttl = 1` and an expired read. -/
theorem cache_roundtrip_amended_witness :
    readStored (saveToCache "k" (7 : ℚ) 0 1) 0 1 = some 7 ∧
    readStored (saveToCache "k" (7 : ℚ) 0 1) 5 2 = none :=
  ⟨(cache_roundtrip_amended ℚ "k" 7 0 1 5 2).1 (by norm_num),
   (cache_roundtrip_amended ℚ "k" 7 0 1 5 2).2 (by norm_num)⟩

/-- Claim C1, counterexample: on a cache miss with the exchange-rate
fetch failing, `getWorldPrices` DOES write to the cache a payload whose
`thb` field is the fixed fallback currency quote `{price: 34.85,
change: 0}` — the generated `worldData` (with the inline THB fallback) is
cached unconditionally. -/
theorem world_cache_put_contains_thb_fallback :
    ((getWorldPrices .notFound 0 (.fetchError "down") 0 (fun _ => 1 / 2)).2.2).map
        (fun w => w.thb) = some ⟨34.85, 0⟩ := by
  simp [getWorldPrices, getFromCache, getWorldPricesTry, fetchExchangeRate,
        fetchExchangeRateBody, buildWorldData, roundQuote]
  norm_num [round2]

/-- Claim C1 (corrected): `getCurrentPrices` returns the fallback
snapshot without any cache write whenever the fetch fails (network error,
non-2xx status, or invalid payload); but `getWorldPrices`, when the
exchange-rate fetch returns absent, still caches the generated payload
containing the fixed fallback currency quote `{34.85, 0}` — only the
complete fallback world snapshot from the catch branch is never cached. -/
theorem fallback_never_cached_amended (f : FetchResult) (now : ℚ) (nowStr exm : String)
    (r : ℚ) (e : Nat → ℚ) (h : fetchSucceeds f = false) :
    (getCurrentPrices .notFound now f nowStr).result = getFallbackPrices nowStr ∧
    (getCurrentPrices .notFound now f nowStr).cachePut = none ∧
    ((getWorldPrices .notFound now (.fetchError exm) r e).2.2).map (fun w => w.thb)
        = some ⟨34.85, 0⟩ := by
  refine ⟨?_, ?_, ?_⟩
  · rw [getCurrentPrices_fail f now nowStr h]
  · rw [getCurrentPrices_fail f now nowStr h]
  · simp [getWorldPrices, getFromCache, getWorldPricesTry, fetchExchangeRate,
          fetchExchangeRateBody, buildWorldData, roundQuote]
    norm_num [round2]

/-- Witness for C1 (amended) at a concrete failed fetch. -/
theorem fallback_never_cached_amended_witness :
    (getCurrentPrices .notFound 0 (.fetchError "net down") "t").result
        = getFallbackPrices "t" ∧
    (getCurrentPrices .notFound 0 (.fetchError "net down") "t").cachePut = none ∧
    ((getWorldPrices .notFound 0 (.fetchError "ex down") (1 / 2) (fun _ => 1 / 2)).2.2).map
        (fun w => w.thb) = some ⟨34.85, 0⟩ :=
  fallback_never_cached_amended (.fetchError "net down") 0 "t" "ex down" (1 / 2)
    (fun _ => 1 / 2) rfl

/-- Claim C4, counterexample: with records
`[{NameEN: "Premium 97", Today: "10"}, {NameEN: "Hi Premium 97", Today: "20"}]`
the source's `findPrice` returns the LATER record's quote (20), because
its outer loop runs over aliases and `"Hi Premium 97"` comes first in
the alias list, while the claim's earlier-record-wins reading
(`findPriceClaimed`) would return 10. -/
theorem findPrice_record_order_cex :
    findPrice [⟨some "Premium 97", none, some 10, some 0⟩,
               ⟨some "Hi Premium 97", none, some 20, some 0⟩] gasoline95Keywords
        = ⟨20, 0⟩ ∧
    findPriceClaimed [⟨some "Premium 97", none, some 10, some 0⟩,
                      ⟨some "Hi Premium 97", none, some 20, some 0⟩] gasoline95Keywords
        = ⟨10, 0⟩ := by
  constructor <;>
    simp +decide [findPrice, findPriceClaimed, gasoline95Keywords, List.find?,
      recordMatches, matchesEN, matchesTH, quoteOf,
      show containsSub (lowerChars "Premium 97") (lowerChars "Premium 97") = true
        from by decide,
      show containsSub (lowerChars "Premium 97") (lowerChars "Hi Premium 97") = true
        from by decide]

/-- Claim C4 (corrected): `findPrice` searches the ALIAS list in priority
order; it returns the quote of the first record, in record order,
matching the first alias that matches any record at all — so alias
priority dominates record order, and an earlier record wins only among
records matching that same alias. -/
theorem findPrice_alias_priority (prods : List RawRecord) (kws : List String) :
    findPrice prods kws =
      match kws.find? (fun kw => (prods.find? (recordMatches kw)).isSome) with
      | some kw =>
        match prods.find? (recordMatches kw) with
        | some p => quoteOf p
        | none => ⟨0, 0⟩
      | none => ⟨0, 0⟩ := by
  induction kws with
  | nil => rfl
  | cons kw rest ih =>
    cases hf : prods.find? (recordMatches kw) with
    | some p => simp [findPrice, List.find?, hf]
    | none => simp [findPrice, List.find?, hf, ih]

/-- Claim C6, counterexample: a matched record whose `Today` is
unparseable but whose `Diff` parses as 1.5 yields `{price: 0,
change: 1.5}`, not the `{price: 0, change: 0}` the claim asserts for a
record with an unparseable numeric field. -/
theorem transform_unparseable_field_cex :
    transformBangchakData
        (some ⟨some [⟨some "Gasohol 95", none, none, some (3 / 2)⟩], some "u"⟩) "n"
      = .ok { gasoline95 := ⟨0, 0⟩, gasoline91 := ⟨0, 0⟩, gasohol95 := ⟨0, 3 / 2⟩,
              gasohol91 := ⟨0, 0⟩, e20 := ⟨0, 0⟩, e85 := ⟨0, 0⟩, dieselB7 := ⟨0, 0⟩,
              dieselB20 := ⟨0, 0⟩, updatedAt := "u" } := by
  simp +decide [transformBangchakData, findPrice, List.find?, recordMatches, matchesEN,
    matchesTH, quoteOf, gasoline95Keywords, gasoline91Keywords, gasohol95Keywords,
    gasohol91Keywords, e20Keywords, e85Keywords, dieselB7Keywords, dieselB20Keywords,
    show containsSub (lowerChars "Gasohol 95") (lowerChars "Gasohol 95") = true
      from by decide]

/-- Claim C6 (corrected): `transformBangchakData` errors exactly when the
payload lacks the top-level `Data` array; with `Data` present it always
returns a complete object, a grade whose aliases match no record defaults
to `{price: 0, change: 0}`, and in a matched record each unparseable
numeric field defaults to 0 INDIVIDUALLY — a parseable field of the same
record keeps its value. -/
theorem transform_amended (payload : Option BangchakPayload) (now : String)
    (prods : List RawRecord) (kws : List String) (p : RawRecord) (kw : String)
    (rest : List String) :
    exOk (transformBangchakData payload now) = payloadHasData payload ∧
    ((∀ q ∈ prods, ∀ kw2 ∈ kws, recordMatches kw2 q = false) →
      findPrice prods kws = ⟨0, 0⟩) ∧
    (prods.find? (recordMatches kw) = some p →
      findPrice prods (kw :: rest) = ⟨p.Today.getD 0, p.Diff.getD 0⟩) := by
  refine ⟨transform_ok_eq payload now, ?_, ?_⟩
  · intro h2
    induction kws with
    | nil => rfl
    | cons k ks ih =>
      have hnone : prods.find? (recordMatches k) = none := by
        rw [List.find?_eq_none]
        intro x hx
        simp [h2 x hx k (by simp)]
      simp only [findPrice, hnone]
      exact ih fun q hq kw2 hkw2 => h2 q hq kw2 (by simp [hkw2])
  · intro h3
    simp only [findPrice, h3, quoteOf]

/-- Witness for C6 (amended) at a concrete payload and record list. -/
theorem transform_amended_witness :
    exOk (transformBangchakData (some ⟨some [], some "u"⟩) "n")
        = payloadHasData (some ⟨some [], some "u"⟩) ∧
    findPrice [⟨some "ZZZ", none, some 5, none⟩] ["Q"] = ⟨0, 0⟩ ∧
    findPrice [⟨some "ZZZ", none, some 5, none⟩] ("zz" :: [])
        = ⟨(RawRecord.mk (some "ZZZ") none (some 5) none).Today.getD 0,
           (RawRecord.mk (some "ZZZ") none (some 5) none).Diff.getD 0⟩ :=
  ⟨(transform_amended (some ⟨some [], some "u"⟩) "n" [⟨some "ZZZ", none, some 5, none⟩]
      ["Q"] ⟨some "ZZZ", none, some 5, none⟩ "zz" []).1,
   (transform_amended (some ⟨some [], some "u"⟩) "n" [⟨some "ZZZ", none, some 5, none⟩]
      ["Q"] ⟨some "ZZZ", none, some 5, none⟩ "zz" []).2.1 (by decide),
   (transform_amended (some ⟨some [], some "u"⟩) "n" [⟨some "ZZZ", none, some 5, none⟩]
      ["Q"] ⟨some "ZZZ", none, some 5, none⟩ "zz" []).2.2 rfl⟩

/-- Claim C9 (confirmed): with every entropy draw in [0,1), each oil
benchmark of the generated world data has price `round2(base + off)` for
an offset in [-2.5, 2.5] and a rounded change in [-1.5, 1.5]; when the
live exchange rate is fetched, the THB quote's change lies in
[-0.1, 0.1]; and the cache-miss path of `getWorldPrices` serves exactly
this generated data. -/
theorem world_prices_bounds (ex : Option PriceQuote) (e : Nat → ℚ) (rate r now : ℚ)
    (exres : ExchangeFetchResult)
    (he : ∀ i, 0 ≤ e i ∧ e i < 1) (hr0 : 0 ≤ r) (hr1 : r < 1) :
    (∃ off, -(5 / 2) ≤ off ∧ off ≤ 5 / 2 ∧
      (buildWorldData ex e).wti.price = round2 (75.42 + off)) ∧
    (∃ off, -(5 / 2) ≤ off ∧ off ≤ 5 / 2 ∧
      (buildWorldData ex e).brent.price = round2 (79.15 + off)) ∧
    (∃ off, -(5 / 2) ≤ off ∧ off ≤ 5 / 2 ∧
      (buildWorldData ex e).dubai.price = round2 (77.80 + off)) ∧
    (-(3 / 2) ≤ (buildWorldData ex e).wti.change ∧
      (buildWorldData ex e).wti.change ≤ 3 / 2) ∧
    (-(3 / 2) ≤ (buildWorldData ex e).brent.change ∧
      (buildWorldData ex e).brent.change ≤ 3 / 2) ∧
    (-(3 / 2) ≤ (buildWorldData ex e).dubai.change ∧
      (buildWorldData ex e).dubai.change ≤ 3 / 2) ∧
    (-(1 / 10) ≤ (buildWorldData (fetchExchangeRate (.response true (some rate)) r) e).thb.change ∧
      (buildWorldData (fetchExchangeRate (.response true (some rate)) r) e).thb.change ≤ 1 / 10) ∧
    (getWorldPrices .notFound now exres r e).2.1 = buildWorldData (fetchExchangeRate exres r) e := by
  have hb : ∀ i, -(3 / 2 : ℚ) ≤ round2 ((e i - 1 / 2) * 3) ∧
      round2 ((e i - 1 / 2) * 3) ≤ 3 / 2 := by
    intro i
    obtain ⟨h0, h1⟩ := he i
    have hB := round2_bounds ((e i - 1 / 2) * 3) (-150) 150
      (by push_cast; linarith) (by push_cast; linarith)
    obtain ⟨hB1, hB2⟩ := hB
    push_cast at hB1 hB2
    constructor <;> linarith
  have hthb : -(1 / 10 : ℚ) ≤ round2 ((r - 1 / 2) * (1 / 5)) ∧
      round2 ((r - 1 / 2) * (1 / 5)) ≤ 1 / 10 := by
    have hB := round2_bounds ((r - 1 / 2) * (1 / 5)) (-10) 10
      (by push_cast; linarith) (by push_cast; linarith)
    obtain ⟨hB1, hB2⟩ := hB
    push_cast at hB1 hB2
    constructor <;> linarith
  refine ⟨⟨(e 0 - 1 / 2) * 5, by linarith [(he 0).1], by linarith [(he 0).2], rfl⟩,
    ⟨(e 2 - 1 / 2) * 5, by linarith [(he 2).1], by linarith [(he 2).2], rfl⟩,
    ⟨(e 4 - 1 / 2) * 5, by linarith [(he 4).1], by linarith [(he 4).2], rfl⟩,
    hb 1, hb 3, hb 5, hthb, rfl⟩

/-- Witness for C9 at the constant entropy stream 1/2, rate 35, r = 1/2. -/
theorem world_prices_bounds_witness :
    (∃ off, -(5 / 2) ≤ off ∧ off ≤ 5 / 2 ∧
      (buildWorldData none fun _ => 1 / 2).wti.price = round2 (75.42 + off)) ∧
    (∃ off, -(5 / 2) ≤ off ∧ off ≤ 5 / 2 ∧
      (buildWorldData none fun _ => 1 / 2).brent.price = round2 (79.15 + off)) ∧
    (∃ off, -(5 / 2) ≤ off ∧ off ≤ 5 / 2 ∧
      (buildWorldData none fun _ => 1 / 2).dubai.price = round2 (77.80 + off)) ∧
    (-(3 / 2) ≤ (buildWorldData none fun _ => 1 / 2).wti.change ∧
      (buildWorldData none fun _ => 1 / 2).wti.change ≤ 3 / 2) ∧
    (-(3 / 2) ≤ (buildWorldData none fun _ => 1 / 2).brent.change ∧
      (buildWorldData none fun _ => 1 / 2).brent.change ≤ 3 / 2) ∧
    (-(3 / 2) ≤ (buildWorldData none fun _ => 1 / 2).dubai.change ∧
      (buildWorldData none fun _ => 1 / 2).dubai.change ≤ 3 / 2) ∧
    (-(1 / 10) ≤
        (buildWorldData (fetchExchangeRate (.response true (some 35)) (1 / 2))
          fun _ => 1 / 2).thb.change ∧
      (buildWorldData (fetchExchangeRate (.response true (some 35)) (1 / 2))
          fun _ => 1 / 2).thb.change ≤ 1 / 10) ∧
    (getWorldPrices .notFound 0 (.fetchError "x") (1 / 2) fun _ => 1 / 2).2.1
        = buildWorldData (fetchExchangeRate (.fetchError "x") (1 / 2)) fun _ => 1 / 2 :=
  world_prices_bounds none (fun _ => 1 / 2) 35 (1 / 2) 0 (.fetchError "x")
    (fun _ => by norm_num) (by norm_num) (by norm_num)

/-- Claim C10 (confirmed): `fetchExchangeRate` returns absent on every
failure mode (rejected fetch, non-ok response, missing THB rate) instead
of propagating an error, so the catch branch of `getWorldPrices` is
unreachable: the result path is always `fromCache` or `generated`, never
`fallback`. -/
theorem world_fallback_unreachable (m : String) (rate : Option ℚ) (r now : ℚ)
    (cacheO : CacheReadOutcome WorldPrices) (exres : ExchangeFetchResult) (e : Nat → ℚ) :
    fetchExchangeRate (.fetchError m) r = none ∧
    fetchExchangeRate (.response false rate) r = none ∧
    fetchExchangeRate (.response true none) r = none ∧
    ((getWorldPrices cacheO now exres r e).1 = WorldPath.fromCache ∨
      (getWorldPrices cacheO now exres r e).1 = WorldPath.generated) := by
  refine ⟨rfl, rfl, rfl, ?_⟩
  cases h : getFromCache cacheO now 3600 with
  | some d =>
    left
    simp [getWorldPrices, h]
  | none =>
    right
    simp [getWorldPrices, h, getWorldPricesTry]

end Oil
